import Mathlib

/-!
Verification development for the Black-Scholes option pricing service
(`src/app.py`).  The Python floats are embedded as real numbers; the
Flask form is embedded as a structure of optional fields; Python
exceptions caught by the route handler are embedded as an error sum type.
-/

namespace BlackScholesOPM

open MeasureTheory ProbabilityTheory

/-- Standard normal cumulative distribution function Φ, the embedding of
`scipy.stats.norm.cdf`: the integral of the standard normal density
(`gaussianPDFReal 0 1`, mean 0, variance 1) over `(-∞, x]`. -/
noncomputable def normCdf (x : ℝ) : ℝ := ∫ y in Set.Iic x, gaussianPDFReal 0 1 y

/-- Error signalled by the pricer functions: the `except`-block of
`black_scholes_call` / `black_scholes_put` re-raises any exception as
`ValueError("Invalid input parameters for Black-Scholes calculation")`. -/
inductive PricerError
| invalidInput
deriving DecidableEq

/-- Value computed by the body of the `try`-block of `black_scholes_call`
(src/app.py lines 31-35):
`d1 = (np.log(S/K) + (r + sigma**2/2)*t) / (sigma*np.sqrt(t))`,
`d2 = d1 - sigma*np.sqrt(t)`,
`call_price = S*norm.cdf(d1) - K*np.exp(-r*t)*norm.cdf(d2)`. -/
noncomputable def black_scholes_call_value (S K sigma r t : ℝ) : ℝ :=
  let d1 := (Real.log (S / K) + (r + sigma ^ 2 / 2) * t) / (sigma * Real.sqrt t)
  let d2 := d1 - sigma * Real.sqrt t
  S * normCdf d1 - K * Real.exp (-r * t) * normCdf d2

/-- Value computed by the body of the `try`-block of `black_scholes_put`
(src/app.py lines 52-56):
`put_price = K*np.exp(-r*t)*norm.cdf(-d2) - S*norm.cdf(-d1)`. -/
noncomputable def black_scholes_put_value (S K sigma r t : ℝ) : ℝ :=
  let d1 := (Real.log (S / K) + (r + sigma ^ 2 / 2) * t) / (sigma * Real.sqrt t)
  let d2 := d1 - sigma * Real.sqrt t
  K * Real.exp (-r * t) * normCdf (-d2) - S * normCdf (-d1)

/-- The function `black_scholes_call` (src/app.py lines 19-38).  The `try`-block raises a
Python exception exactly when `K = 0`: `S/K` is plain float division, which
raises `ZeroDivisionError` on a zero divisor, and that exception is caught
and re-raised as the `ValueError` modelled by `PricerError.invalidInput`.
Every other operation in the block is a numpy/scipy operation
(`np.log`, `np.sqrt`, `np.exp`, `norm.cdf`, and division of numpy float64
scalars), and under numpy's default error state these return `inf`/`nan`
with a `RuntimeWarning` instead of raising, so for any other input —
including non-positive `S`, `sigma` or `t` — the function returns a float.
The float returned on such degenerate paths is embedded by the total real
arithmetic of `black_scholes_call_value` (Lean's `Real.log`, `Real.sqrt`
and division are total); only on inputs satisfying the documented
invariants do the two agree as numbers, which is all the theorems use. -/
noncomputable def black_scholes_call (S K sigma r t : ℝ) : Except PricerError ℝ :=
  if K = 0 then Except.error PricerError.invalidInput
  else Except.ok (black_scholes_call_value S K sigma r t)

/-- The function `black_scholes_put` (src/app.py lines 40-59); the same raising behaviour
as `black_scholes_call`. -/
noncomputable def black_scholes_put (S K sigma r t : ℝ) : Except PricerError ℝ :=
  if K = 0 then Except.error PricerError.invalidInput
  else Except.ok (black_scholes_put_value S K sigma r t)

/-- The five recommendation labels returned by `get_trading_recommendation`:
`strongBuy`, `considerBuy`, `neutral`, `considerSell`, `strongSell` stand
for the strings "Strong Buy", "Consider Buy", "Neutral", "Consider Sell",
"Strong Sell". -/
inductive Recommendation
| strongBuy
| considerBuy
| neutral
| considerSell
| strongSell
deriving DecidableEq

/-- The classifier `get_trading_recommendation` (src/app.py lines 61-71), mirroring the
`if`/`elif` chain in source order. -/
noncomputable def get_trading_recommendation (edge : ℝ) : Recommendation :=
  if edge < -0.10 then Recommendation.strongBuy
  else if edge < 0 then Recommendation.considerBuy
  else if edge > 0.10 then Recommendation.strongSell
  else if edge > 0 then Recommendation.considerSell
  else Recommendation.neutral

/-- Python's `str.lower()` (src/app.py line 95), embedded as a character map;
the form's option types are ASCII, where Python's lowering and `Char.toLower`
agree. -/
def lowerString (s : String) : String := ⟨s.data.map Char.toLower⟩

/-- Python's `str.upper()` (src/app.py line 114), embedded as a character
map. -/
def upperString (s : String) : String := ⟨s.data.map Char.toUpper⟩

/-- Python's `str.capitalize()` (src/app.py line 117): first character
upper-cased, the rest lower-cased. -/
def capitalizeString (s : String) : String :=
  match s.data with
  | [] => ⟨[]⟩
  | c :: cs => ⟨c.toUpper :: cs.map Char.toLower⟩

/-- The submitted form, the embedding of `request.form` as seen by the POST
branch of `index`.  A numeric field is `none` when absent from the form,
`some none` when present but not parseable by `float()` (which then raises
`ValueError`), and `some (some x)` when present and parsing to `x`.  The
three text fields are `none` when absent and `some s` otherwise. -/
structure Form where
  spot_price : Option (Option ℝ)
  strike_price : Option (Option ℝ)
  volatility : Option (Option ℝ)
  risk_free_rate : Option (Option ℝ)
  time_to_expiry : Option (Option ℝ)
  market_price : Option (Option ℝ)
  option_type : Option String
  symbol : Option String
  expiry_date : Option String

/-- The dataclass `OptionResult` (src/app.py lines 10-17), with the recommendation string
embedded as the `Recommendation` label it spells. -/
structure OptionResult where
  bs_price : ℝ
  edge : ℝ
  symbol : String
  expiry_date : String
  recommendation : Recommendation
  option_type : String

/-- The distinct error outcomes of the POST branch of `index`, one per
`raise`/`except` site: `missingField` for "All fields are required",
`parseError` for the `ValueError` raised by `float()` on non-numeric text,
`invalidInput` for "Prices, volatility, and time must be positive" and for
the pricer's re-raised `ValueError`, `invalidOptionType` for "Invalid
option type. Must be 'call' or 'put'", and `internalError` for the
`except Exception` branch ("An unexpected error occurred"), reached e.g.
by the `BadRequestKeyError` (a `KeyError`, not a `ValueError`) that
`request.form['symbol']` raises for an absent key. -/
inductive EvalError
| missingField
| parseError
| invalidInput
| invalidOptionType
| internalError
deriving DecidableEq

/-- Python's `round(x, 2)` (src/app.py lines 112-113).  Python rounds exact
representational ties to even; no modelled input sits on a tie, so the
embedding uses Lean's `round`. -/
noncomputable def round2 (x : ℝ) : ℝ := (round (x * 100) : ℤ) / 100

/-- Construction of the result once a pricer has been chosen (src/app.py
lines 103-118), shared by the call and put branches: `ot` is the already
lower-cased option type, `market` the parsed market price, `priced` the
pricer's outcome.  A pricer `ValueError` is caught by `except ValueError`
(line 120); then `edge = market_price - bs_price`, and the `OptionResult`
is built with `round(bs_price, 2)`, `round(edge, 2)`,
`request.form['symbol'].upper()` (raising the non-`ValueError`
`BadRequestKeyError` when `symbol` or `expiry_date` is absent, caught by
`except Exception`), and `get_trading_recommendation(edge)` on the
unrounded edge. -/
noncomputable def buildResult (f : Form) (ot : String) (market : ℝ)
    (priced : Except PricerError ℝ) : Except EvalError OptionResult :=
  match priced with
  | Except.error _ => Except.error EvalError.invalidInput
  | Except.ok bs_price =>
    let edge := market - bs_price
    match f.symbol, f.expiry_date with
    | some sym, some expd =>
      Except.ok
        { bs_price := round2 bs_price
          edge := round2 edge
          symbol := upperString sym
          expiry_date := expd
          recommendation := get_trading_recommendation edge
          option_type := capitalizeString ot }
    | _, _ => Except.error EvalError.internalError

/-- The POST branch of `index` (src/app.py lines 78-124).  In source order:
the presence check of the seven `required_fields` (lines 81-86, neither
`symbol` nor `expiry_date` among them); parsing of the six numeric fields
with `float()` (lines 89-94); normalization `sigma = volatility/100`,
`r = risk_free_rate/100`, `t = time_to_expiry/365` applied during parsing;
lower-casing of `option_type` (line 95); the positivity check
`any(x <= 0 for x in [S, K, sigma, t])` (lines 98-99); dispatch on the
lower-cased option type (lines 102-107); then `buildResult`.  The inner
`missingField` fallback of the seven-way match is unreachable: the guard
already established that all seven fields are present. -/
noncomputable def index (f : Form) : Except EvalError OptionResult :=
  if f.spot_price.isSome ∧ f.strike_price.isSome ∧ f.volatility.isSome ∧
      f.risk_free_rate.isSome ∧ f.time_to_expiry.isSome ∧
      f.market_price.isSome ∧ f.option_type.isSome then
    match f.spot_price, f.strike_price, f.volatility, f.risk_free_rate,
        f.time_to_expiry, f.market_price, f.option_type with
    | some pS, some pK, some pV, some pR, some pT, some pM, some rawOt =>
      match pS, pK, pV, pR, pT, pM with
      | some S, some K, some vol, some rate, some days, some market =>
        let sigma := vol / 100
        let r := rate / 100
        let t := days / 365
        let option_type := lowerString rawOt
        if S ≤ 0 ∨ K ≤ 0 ∨ sigma ≤ 0 ∨ t ≤ 0 then
          Except.error EvalError.invalidInput
        else if option_type = "call" then
          buildResult f option_type market (black_scholes_call S K sigma r t)
        else if option_type = "put" then
          buildResult f option_type market (black_scholes_put S K sigma r t)
        else
          Except.error EvalError.invalidOptionType
      | _, _, _, _, _, _ => Except.error EvalError.parseError
    | _, _, _, _, _, _, _ => Except.error EvalError.missingField
  else Except.error EvalError.missingField

/-- The value `d1` of the specification, written from the spec text:
`d1 = (ln(spot/strike) + (rate + volatility²/2) · time) / (volatility · √time)`. -/
noncomputable def spec_d1 (S K sigma r t : ℝ) : ℝ :=
  (Real.log (S / K) + (r + sigma ^ 2 / 2) * t) / (sigma * Real.sqrt t)

/-- The value `d2 = d1 − volatility · √time` of the specification. -/
noncomputable def spec_d2 (S K sigma r t : ℝ) : ℝ :=
  spec_d1 S K sigma r t - sigma * Real.sqrt t

/-- The call price of the specification, written from the spec text:
`spot · Φ(d1) − strike · e^(−rate·time) · Φ(d2)`. -/
noncomputable def spec_call_price (S K sigma r t : ℝ) : ℝ :=
  S * normCdf (spec_d1 S K sigma r t) -
    K * Real.exp (-r * t) * normCdf (spec_d2 S K sigma r t)

/-- The put price of the specification, written from the spec text:
`strike · e^(−rate·time) · Φ(−d2) − spot · Φ(−d1)`. -/
noncomputable def spec_put_price (S K sigma r t : ℝ) : ℝ :=
  K * Real.exp (-r * t) * normCdf (-spec_d2 S K sigma r t) -
    S * normCdf (-spec_d1 S K sigma r t)

/-- A market price exactly 0.101 above the theoretical call value of a
request that normalizes to spot 1, strike 1, volatility 1, rate 0, one
year: used to exhibit the gap between the rounded and unrounded edge. -/
noncomputable def exampleMarket : ℝ := black_scholes_call_value 1 1 1 0 1 + 0.101

/-- A complete valid call request: volatility 100 (percent), rate 0, 365
days, market price `exampleMarket`. -/
noncomputable def exampleForm : Form :=
  { spot_price := some (some 1), strike_price := some (some 1),
    volatility := some (some 100), risk_free_rate := some (some 0),
    time_to_expiry := some (some 365), market_price := some (some exampleMarket),
    option_type := some "call", symbol := some "spy",
    expiry_date := some "2026-01-01" }

/-- The result `index` produces on `exampleForm`: the unrounded edge is
0.101, the displayed edge is `round2 0.101`, and the recommendation is
classified from the unrounded 0.101. -/
noncomputable def exampleResult : OptionResult :=
  { bs_price := round2 (black_scholes_call_value 1 1 1 0 1)
    edge := round2 0.101
    symbol := upperString "spy"
    expiry_date := "2026-01-01"
    recommendation := get_trading_recommendation 0.101
    option_type := capitalizeString (lowerString "call") }

/-- The standard normal density is even. -/
lemma gaussianPDFReal_std_neg (y : ℝ) :
    gaussianPDFReal 0 1 (-y) = gaussianPDFReal 0 1 y := by
  simp [gaussianPDFReal, neg_sq]

/-- Reflection symmetry of the standard normal CDF:
`Φ(x) + Φ(−x) = 1`. -/
lemma normCdf_add_normCdf_neg (x : ℝ) : normCdf x + normCdf (-x) = 1 := by
  have h1 : normCdf (-x) = ∫ y in Set.Ioi x, gaussianPDFReal 0 1 y := by
    unfold normCdf
    rw [← integral_comp_neg_Ioi x (fun y => gaussianPDFReal 0 1 y)]
    exact setIntegral_congr_fun measurableSet_Ioi
      (fun y _ => gaussianPDFReal_std_neg y)
  have h2 := integral_add_compl (measurableSet_Iic (a := x))
    (integrable_gaussianPDFReal 0 1)
  rw [Set.compl_Iic] at h2
  rw [normCdf, h1, h2, integral_gaussianPDFReal_eq_one 0 one_ne_zero]

/-- C2: for every real edge, `get_trading_recommendation` implements exactly
the five-bucket threshold policy: `edge < −0.10` gives StrongBuy,
`−0.10 ≤ edge < 0` gives ConsiderBuy, `edge = 0` gives Neutral,
`0 < edge ≤ 0.10` gives ConsiderSell, and `edge > 0.10` gives StrongSell;
being a Lean function `ℝ → Recommendation` it is pure and total. -/
theorem classify_threshold_policy (edge : ℝ) :
    (edge < -0.10 → get_trading_recommendation edge = Recommendation.strongBuy) ∧
    (-0.10 ≤ edge ∧ edge < 0 →
      get_trading_recommendation edge = Recommendation.considerBuy) ∧
    (edge = 0 → get_trading_recommendation edge = Recommendation.neutral) ∧
    (0 < edge ∧ edge ≤ 0.10 →
      get_trading_recommendation edge = Recommendation.considerSell) ∧
    (0.10 < edge → get_trading_recommendation edge = Recommendation.strongSell) := by
  unfold get_trading_recommendation
  refine ⟨fun h => ?_, fun h => ?_, fun h => ?_, fun h => ?_, fun h => ?_⟩
  · rw [if_pos h]
  · rw [if_neg (by linarith [h.1]), if_pos h.2]
  · norm_num [h]
  · rw [if_neg (by linarith [h.1]), if_neg (by linarith [h.1]),
      if_neg (by linarith [h.2]), if_pos h.1]
  · rw [if_neg (by norm_num; linarith), if_neg (by norm_num; linarith), if_pos h]

/-- Witness for C2 at the boundary values: `classify(−0.10) = ConsiderBuy`
and `classify(0.10) = ConsiderSell`. -/
theorem classify_threshold_policy_witness :
    get_trading_recommendation (-0.10 : ℝ) = Recommendation.considerBuy ∧
    get_trading_recommendation (0.10 : ℝ) = Recommendation.considerSell :=
  ⟨(classify_threshold_policy (-0.10)).2.1 ⟨by norm_num, by norm_num⟩,
    (classify_threshold_policy (0.10)).2.2.2.1 ⟨by norm_num, by norm_num⟩⟩

/-- C1: for every input with positive spot, strike, volatility and time and
any real rate, the call pricer returns `spot·Φ(d1) − strike·e^(−rate·time)·Φ(d2)`
and the put pricer returns `strike·e^(−rate·time)·Φ(−d2) − spot·Φ(−d1)`,
with `d1` and `d2` as the specification defines them. -/
theorem pricer_returns_black_scholes_value (S K sigma r t : ℝ)
    (hS : 0 < S) (hK : 0 < K) (hsigma : 0 < sigma) (ht : 0 < t) :
    black_scholes_call S K sigma r t = Except.ok (spec_call_price S K sigma r t) ∧
    black_scholes_put S K sigma r t = Except.ok (spec_put_price S K sigma r t) := by
  unfold black_scholes_call black_scholes_put
  rw [if_neg hK.ne', if_neg hK.ne']
  exact ⟨rfl, rfl⟩

/-- Witness for C1 at spot = strike = volatility = time = 1, rate = 0. -/
theorem pricer_returns_black_scholes_value_witness :
    black_scholes_call 1 1 1 0 1 = Except.ok (spec_call_price 1 1 1 0 1) ∧
    black_scholes_put 1 1 1 0 1 = Except.ok (spec_put_price 1 1 1 0 1) :=
  pricer_returns_black_scholes_value 1 1 1 0 1 one_pos one_pos one_pos one_pos

/-- C3: for every valid input (spot, strike, volatility, time positive), the
call price minus the put price returned by the pricer equals
`spot − strike·e^(−rate·time)` (put-call parity), exactly over the real
embedding. -/
theorem put_call_parity (S K sigma r t : ℝ)
    (hS : 0 < S) (hK : 0 < K) (hsigma : 0 < sigma) (ht : 0 < t) :
    black_scholes_call S K sigma r t =
      Except.ok (black_scholes_call_value S K sigma r t) ∧
    black_scholes_put S K sigma r t =
      Except.ok (black_scholes_put_value S K sigma r t) ∧
    black_scholes_call_value S K sigma r t - black_scholes_put_value S K sigma r t
      = S - K * Real.exp (-r * t) := by
  refine ⟨?_, ?_, ?_⟩
  · unfold black_scholes_call; rw [if_neg hK.ne']
  · unfold black_scholes_put; rw [if_neg hK.ne']
  · unfold black_scholes_call_value black_scholes_put_value
    set d1 := (Real.log (S / K) + (r + sigma ^ 2 / 2) * t) / (sigma * Real.sqrt t)
    have h1 := normCdf_add_normCdf_neg d1
    have h2 := normCdf_add_normCdf_neg (d1 - sigma * Real.sqrt t)
    simp only []
    linear_combination S * h1 - K * Real.exp (-r * t) * h2

/-- Witness for C3 at spot = strike = volatility = time = 1, rate = 0. -/
theorem put_call_parity_witness :
    black_scholes_call 1 1 1 0 1 = Except.ok (black_scholes_call_value 1 1 1 0 1) ∧
    black_scholes_put 1 1 1 0 1 = Except.ok (black_scholes_put_value 1 1 1 0 1) ∧
    black_scholes_call_value 1 1 1 0 1 - black_scholes_put_value 1 1 1 0 1
      = 1 - 1 * Real.exp (-0 * 1) :=
  put_call_parity 1 1 1 0 1 one_pos one_pos one_pos one_pos

/-- C4 fails on the code: called with volatility 0 (a violated positivity
invariant, and `sigma*np.sqrt(t) = 0` making the arithmetic degenerate), the
pricer does not raise: numpy division by a zero float64 yields `inf` with a
warning rather than an exception, so the `except`-branch never runs and the
function returns a numeric value.  The pricer only raises for `K = 0`, where
plain Python float division raises `ZeroDivisionError`. -/
theorem pricer_accepts_zero_volatility :
    black_scholes_call 100 100 0 (5 / 100) 1 =
      Except.ok (black_scholes_call_value 100 100 0 (5 / 100) 1) := by
  unfold black_scholes_call
  rw [if_neg (by norm_num)]

/-- C8: when any of the seven required fields is absent, `index` fails with
MissingField as its first step, whatever the other fields hold — no parsing,
normalization, validation, dispatch or pricing takes place. -/
theorem missing_required_field_fails_first (f : Form)
    (h : f.spot_price = none ∨ f.strike_price = none ∨ f.volatility = none ∨
      f.risk_free_rate = none ∨ f.time_to_expiry = none ∨
      f.market_price = none ∨ f.option_type = none) :
    index f = Except.error EvalError.missingField := by
  unfold index
  rw [if_neg]
  intro hall
  rcases h with h | h | h | h | h | h | h <;> rw [h] at hall <;>
    simp at hall

/-- Witness for C8: a form missing `spot_price` (other fields present, some
even invalid) yields MissingField. -/
theorem missing_required_field_fails_first_witness :
    index
      { spot_price := none, strike_price := some (some 100),
        volatility := some (some 20), risk_free_rate := some (some 5),
        time_to_expiry := some (some 30), market_price := some (some 3),
        option_type := some "straddle", symbol := some "spy",
        expiry_date := some "2026-01-01" } =
      Except.error EvalError.missingField :=
  missing_required_field_fails_first _ (Or.inl rfl)

/-- C5: when all seven required fields are present and parse, and the
normalized volatility `vol/100` or normalized time `days/365` is zero or
negative, `index` fails with InvalidInput from the validation step — whatever
the option type says, so no dispatch or pricing runs, and `index` being a
total Lean function there is no division fault. -/
theorem zero_vol_or_time_rejected_before_pricing (f : Form)
    (S K vol rate days market : ℝ) (rawOt : String)
    (hS : f.spot_price = some (some S))
    (hK : f.strike_price = some (some K))
    (hV : f.volatility = some (some vol))
    (hR : f.risk_free_rate = some (some rate))
    (hT : f.time_to_expiry = some (some days))
    (hM : f.market_price = some (some market))
    (hO : f.option_type = some rawOt)
    (hz : vol / 100 ≤ 0 ∨ days / 365 ≤ 0) :
    index f = Except.error EvalError.invalidInput := by
  unfold index
  rw [hS, hK, hV, hR, hT, hM, hO]
  simp only [Option.isSome_some, and_self, if_true]
  rw [if_pos]
  rcases hz with h | h
  · exact Or.inr (Or.inr (Or.inl h))
  · exact Or.inr (Or.inr (Or.inr h))

/-- Witness for C5: a form with volatility 0 (and an invalid option type,
showing validation precedes dispatch) yields InvalidInput. -/
theorem zero_vol_or_time_rejected_before_pricing_witness :
    index
      { spot_price := some (some 100), strike_price := some (some 100),
        volatility := some (some 0), risk_free_rate := some (some 5),
        time_to_expiry := some (some 30), market_price := some (some 3),
        option_type := some "straddle", symbol := some "spy",
        expiry_date := some "2026-01-01" } =
      Except.error EvalError.invalidInput :=
  zero_vol_or_time_rejected_before_pricing _ 100 100 0 5 30 3 "straddle"
    rfl rfl rfl rfl rfl rfl rfl (Or.inl (by norm_num))

/-- C7: with all required fields present, parsed, and passing validation,
`index` dispatches to the call pricer exactly when the option type
lower-cases to "call", to the put pricer exactly when it lower-cases to
"put", and fails with InvalidOptionType for every other string. -/
theorem dispatch_on_variant (f : Form)
    (S K vol rate days market : ℝ) (rawOt : String)
    (hS : f.spot_price = some (some S))
    (hK : f.strike_price = some (some K))
    (hV : f.volatility = some (some vol))
    (hR : f.risk_free_rate = some (some rate))
    (hT : f.time_to_expiry = some (some days))
    (hM : f.market_price = some (some market))
    (hO : f.option_type = some rawOt)
    (hSpos : 0 < S) (hKpos : 0 < K) (hVpos : 0 < vol) (hTpos : 0 < days) :
    (lowerString rawOt = "call" →
      index f = buildResult f (lowerString rawOt) market
        (black_scholes_call S K (vol / 100) (rate / 100) (days / 365))) ∧
    (lowerString rawOt = "put" →
      index f = buildResult f (lowerString rawOt) market
        (black_scholes_put S K (vol / 100) (rate / 100) (days / 365))) ∧
    (lowerString rawOt ≠ "call" → lowerString rawOt ≠ "put" →
      index f = Except.error EvalError.invalidOptionType) := by
  have hguard : ¬(S ≤ 0 ∨ K ≤ 0 ∨ vol / 100 ≤ 0 ∨ days / 365 ≤ 0) := by
    push_neg
    exact ⟨hSpos, hKpos, by positivity, by positivity⟩
  unfold index
  rw [hS, hK, hV, hR, hT, hM, hO]
  simp only [Option.isSome_some, and_self, if_true]
  rw [if_neg hguard]
  refine ⟨fun hc => ?_, fun hp => ?_, fun hc hp => ?_⟩
  · rw [if_pos hc]
  · rw [if_neg (by rw [hp]; decide), if_pos hp]
  · rw [if_neg hc, if_neg hp]

/-- Witness for C7: a form with `option_type = "STRADDLE"` (other fields
valid) fails with InvalidOptionType, and the lower-casing makes the check
case-insensitive. -/
theorem dispatch_on_variant_witness :
    index
      { spot_price := some (some 100), strike_price := some (some 100),
        volatility := some (some 20), risk_free_rate := some (some 5),
        time_to_expiry := some (some 30), market_price := some (some 3),
        option_type := some "STRADDLE", symbol := some "spy",
        expiry_date := some "2026-01-01" } =
      Except.error EvalError.invalidOptionType :=
  (dispatch_on_variant _ 100 100 20 5 30 3 "STRADDLE"
    rfl rfl rfl rfl rfl rfl rfl
    (by norm_num) (by norm_num) (by norm_num) (by norm_num)).2.2
    (by decide) (by decide)

/-- C6: `index` hands the pricer exactly the normalized parameters —
spot, strike and market price unscaled, volatility and risk-free rate
divided by 100, time to expiry divided by 365 — for both the call and the
put variant. -/
theorem normalization_constants (f : Form)
    (S K vol rate days market : ℝ) (rawOt sym expd : String)
    (hS : f.spot_price = some (some S))
    (hK : f.strike_price = some (some K))
    (hV : f.volatility = some (some vol))
    (hR : f.risk_free_rate = some (some rate))
    (hT : f.time_to_expiry = some (some days))
    (hM : f.market_price = some (some market))
    (hO : f.option_type = some rawOt)
    (hsym : f.symbol = some sym)
    (hexp : f.expiry_date = some expd)
    (hSpos : 0 < S) (hKpos : 0 < K) (hVpos : 0 < vol) (hTpos : 0 < days) :
    (lowerString rawOt = "call" →
      index f = Except.ok
        { bs_price :=
            round2 (black_scholes_call_value S K (vol / 100) (rate / 100) (days / 365))
          edge :=
            round2 (market -
              black_scholes_call_value S K (vol / 100) (rate / 100) (days / 365))
          symbol := upperString sym
          expiry_date := expd
          recommendation :=
            get_trading_recommendation (market -
              black_scholes_call_value S K (vol / 100) (rate / 100) (days / 365))
          option_type := capitalizeString (lowerString rawOt) }) ∧
    (lowerString rawOt = "put" →
      index f = Except.ok
        { bs_price :=
            round2 (black_scholes_put_value S K (vol / 100) (rate / 100) (days / 365))
          edge :=
            round2 (market -
              black_scholes_put_value S K (vol / 100) (rate / 100) (days / 365))
          symbol := upperString sym
          expiry_date := expd
          recommendation :=
            get_trading_recommendation (market -
              black_scholes_put_value S K (vol / 100) (rate / 100) (days / 365))
          option_type := capitalizeString (lowerString rawOt) }) := by
  have hguard : ¬(S ≤ 0 ∨ K ≤ 0 ∨ vol / 100 ≤ 0 ∨ days / 365 ≤ 0) := by
    push_neg
    exact ⟨hSpos, hKpos, by positivity, by positivity⟩
  unfold index
  rw [hS, hK, hV, hR, hT, hM, hO]
  simp only [Option.isSome_some, and_self, if_true]
  rw [if_neg hguard]
  constructor
  · intro hc
    rw [if_pos hc]
    unfold black_scholes_call buildResult
    rw [if_neg hKpos.ne', hsym, hexp]
  · intro hp
    rw [if_neg (by rw [hp]; decide), if_pos hp]
    unfold black_scholes_put buildResult
    rw [if_neg hKpos.ne', hsym, hexp]

/-- Witness for C6: concrete call request with volatility 20 (percent),
rate 5 (percent), 73 days; the pricer receives 0.20, 0.05 and 0.2 years. -/
theorem normalization_constants_witness :
    index
      { spot_price := some (some 100), strike_price := some (some 95),
        volatility := some (some 20), risk_free_rate := some (some 5),
        time_to_expiry := some (some 73), market_price := some (some 7),
        option_type := some "Call", symbol := some "spy",
        expiry_date := some "2026-01-01" } =
      Except.ok
        { bs_price := round2 (black_scholes_call_value 100 95 (20 / 100) (5 / 100) (73 / 365))
          edge := round2 ((7 : ℝ) -
            black_scholes_call_value 100 95 (20 / 100) (5 / 100) (73 / 365))
          symbol := "SPY"
          expiry_date := "2026-01-01"
          recommendation := get_trading_recommendation ((7 : ℝ) -
            black_scholes_call_value 100 95 (20 / 100) (5 / 100) (73 / 365))
          option_type := "Call" } := by
  have h := (normalization_constants
    { spot_price := some (some 100), strike_price := some (some 95),
      volatility := some (some 20), risk_free_rate := some (some 5),
      time_to_expiry := some (some 73), market_price := some (some 7),
      option_type := some "Call", symbol := some "spy",
      expiry_date := some "2026-01-01" }
    100 95 20 5 73 7 "Call" "spy" "2026-01-01"
    rfl rfl rfl rfl rfl rfl rfl rfl rfl
    (by norm_num) (by norm_num) (by norm_num) (by norm_num)).1 (by decide)
  exact h

/-- A successful `buildResult` rounds the edge for display and classifies
the same unrounded edge. -/
lemma buildResult_ok_inv (f : Form) (ot : String) (market : ℝ)
    (priced : Except PricerError ℝ) (res : OptionResult)
    (h : buildResult f ot market priced = Except.ok res) :
    ∃ e : ℝ, res.edge = round2 e ∧
      res.recommendation = get_trading_recommendation e := by
  unfold buildResult at h
  split at h
  · exact absurd h (by simp)
  · split at h
    · cases Except.ok.inj h
      exact ⟨_, rfl, rfl⟩
    · exact absurd h (by simp)

/-- Every successful `index` outcome rounds the edge for display and
classifies the same unrounded edge. -/
lemma index_ok_inv (f : Form) (res : OptionResult)
    (h : index f = Except.ok res) :
    ∃ e : ℝ, res.edge = round2 e ∧
      res.recommendation = get_trading_recommendation e := by
  unfold index at h
  split at h
  · split at h
    · split at h
      · simp only [] at h
        split at h
        · exact absurd h (by simp)
        · split at h
          · exact buildResult_ok_inv _ _ _ _ _ h
          · split at h
            · exact buildResult_ok_inv _ _ _ _ _ h
            · exact absurd h (by simp)
      · exact absurd h (by simp)
    · exact absurd h (by simp)
  · exact absurd h (by simp)

/-- Evaluation of `index` on the example request. -/
lemma index_exampleForm : index exampleForm = Except.ok exampleResult := by
  unfold index exampleForm
  simp only [Option.isSome_some, and_self, if_true]
  have e1 : (100 : ℝ) / 100 = 1 := by norm_num
  have e2 : (0 : ℝ) / 100 = 0 := by norm_num
  have e3 : (365 : ℝ) / 365 = 1 := by norm_num
  rw [e1, e2, e3, if_neg (by norm_num), if_pos (by decide)]
  unfold black_scholes_call buildResult
  rw [if_neg (by norm_num : (1 : ℝ) ≠ 0)]
  have em : exampleMarket - black_scholes_call_value 1 1 1 0 1 = 0.101 := by
    unfold exampleMarket
    ring
  simp only [em]
  rfl

/-- Rounding 0.101 to two decimals gives 0.10. -/
lemma round2_of_point101 : round2 (0.101 : ℝ) = 0.10 := by
  unfold round2
  have h : (0.101 : ℝ) * 100 = 10.1 := by norm_num
  rw [h, round_eq]
  norm_num [Int.floor_eq_iff]

/-- The classifier sends 0.10 to ConsiderSell. -/
lemma classify_of_point10 :
    get_trading_recommendation (0.10 : ℝ) = Recommendation.considerSell := by
  unfold get_trading_recommendation
  rw [if_neg (by norm_num), if_neg (by norm_num), if_neg (by norm_num),
    if_pos (by norm_num)]

/-- The classifier sends 0.101 to StrongSell. -/
lemma classify_of_point101 :
    get_trading_recommendation (0.101 : ℝ) = Recommendation.strongSell := by
  unfold get_trading_recommendation
  rw [if_neg (by norm_num), if_neg (by norm_num), if_pos (by norm_num)]

/-- C9: rounding of the theoretical price and of the edge is presentation
only — every successful result's displayed edge is `round2` of an unrounded
edge whose classification is the returned recommendation — and for some
request (the example form, unrounded edge 0.101, displayed edge 0.10)
classifying the displayed edge would give a different label than the
returned recommendation. -/
theorem rounding_presentation_only :
    (∀ (f : Form) (res : OptionResult), index f = Except.ok res →
      ∃ e : ℝ, res.edge = round2 e ∧
        res.recommendation = get_trading_recommendation e) ∧
    (∃ (f : Form) (res : OptionResult), index f = Except.ok res ∧
      get_trading_recommendation res.edge ≠ res.recommendation) := by
  constructor
  · exact index_ok_inv
  · refine ⟨exampleForm, exampleResult, index_exampleForm, ?_⟩
    show get_trading_recommendation (round2 0.101) ≠ get_trading_recommendation 0.101
    rw [round2_of_point101, classify_of_point10, classify_of_point101]
    decide

/-- Witness for C9 on the example request. -/
theorem rounding_presentation_only_witness :
    ∃ e : ℝ, exampleResult.edge = round2 e ∧
      exampleResult.recommendation = get_trading_recommendation e :=
  rounding_presentation_only.1 exampleForm exampleResult index_exampleForm

/-- C10: `symbol` and `expiry_date` are not among the checked required
fields; a request with the seven checked fields present and valid but
`symbol` (or `expiry_date`) absent passes validation and dispatch, and then
fails with the generic internal error of the `except Exception` branch —
not with MissingField. -/
theorem missing_symbol_generic_error (f : Form)
    (S K vol rate days market : ℝ) (rawOt : String)
    (hS : f.spot_price = some (some S))
    (hK : f.strike_price = some (some K))
    (hV : f.volatility = some (some vol))
    (hR : f.risk_free_rate = some (some rate))
    (hT : f.time_to_expiry = some (some days))
    (hM : f.market_price = some (some market))
    (hO : f.option_type = some rawOt)
    (hSpos : 0 < S) (hKpos : 0 < K) (hVpos : 0 < vol) (hTpos : 0 < days)
    (hvariant : lowerString rawOt = "call" ∨ lowerString rawOt = "put")
    (hmiss : f.symbol = none ∨ f.expiry_date = none) :
    index f = Except.error EvalError.internalError := by
  have hguard : ¬(S ≤ 0 ∨ K ≤ 0 ∨ vol / 100 ≤ 0 ∨ days / 365 ≤ 0) := by
    push_neg
    exact ⟨hSpos, hKpos, by positivity, by positivity⟩
  have hbuild : ∀ market₀ priced₀, (∃ v, priced₀ = Except.ok v) →
      buildResult f (lowerString rawOt) market₀ priced₀ =
        Except.error EvalError.internalError := by
    rintro market₀ priced₀ ⟨v, rfl⟩
    unfold buildResult
    rcases hmiss with hm | hm
    · rw [hm]
    · rw [hm]
      cases f.symbol <;> rfl
  unfold index
  rw [hS, hK, hV, hR, hT, hM, hO]
  simp only [Option.isSome_some, and_self, if_true]
  rw [if_neg hguard]
  rcases hvariant with hc | hp
  · rw [if_pos hc]
    refine hbuild _ _
      ⟨black_scholes_call_value S K (vol / 100) (rate / 100) (days / 365), ?_⟩
    unfold black_scholes_call
    rw [if_neg hKpos.ne']
  · rw [if_neg (by rw [hp]; decide), if_pos hp]
    refine hbuild _ _
      ⟨black_scholes_put_value S K (vol / 100) (rate / 100) (days / 365), ?_⟩
    unfold black_scholes_put
    rw [if_neg hKpos.ne']

/-- Witness for C10: a valid put request that omits `symbol` fails with the
generic internal error. -/
theorem missing_symbol_generic_error_witness :
    index
      { spot_price := some (some 100), strike_price := some (some 95),
        volatility := some (some 20), risk_free_rate := some (some 5),
        time_to_expiry := some (some 73), market_price := some (some 7),
        option_type := some "Put", symbol := none,
        expiry_date := some "2026-01-01" } =
      Except.error EvalError.internalError :=
  missing_symbol_generic_error _ 100 95 20 5 73 7 "Put"
    rfl rfl rfl rfl rfl rfl rfl
    (by norm_num) (by norm_num) (by norm_num) (by norm_num)
    (Or.inr (by decide)) (Or.inl rfl)

end BlackScholesOPM
